import Mathlib

/-!
Verification development for the bikeaction.org election and membership
subsystem.  The definitions below are shallow embeddings of the Python
source: the nomination state machine (`src/elections/models.py`,
`src/elections/views.py`), the membership eligibility evaluator
(`src/profiles/models.py`, `Profile.eligible_as_of`) and the election
results calculator (`src/elections/views.py`,
`calculate_election_results`).  Dates and datetimes are modelled as
integer day numbers; Django querysets appear as explicit input lists.
-/

namespace BikeAction

/-! ## Nomination state machine

`Nomination` mirrors the fields of `elections.models.Nomination` that
the lifecycle logic reads or writes: `nominator` and the nominee's user
(as user ids), the `draft` flag, `acceptance_status` and
`acceptance_date`.  The nomination statement and note carry no control
flow and are omitted. -/

inductive AcceptanceStatus
  | pending
  | accepted
  | declined
deriving DecidableEq, Repr

structure Nomination where
  nominator : Nat
  nomineeUser : Nat
  draft : Bool
  acceptanceStatus : AcceptanceStatus
  acceptanceDate : Option Int
deriving DecidableEq, Repr

/-- `was_draft` as computed in `Nomination.save`: the `draft` flag of the
old database row, `False` when the row is new. -/
def nominationWasDraft : Option Nomination → Bool
  | none => false
  | some o => o.draft

/-- `Nomination.save` (`src/elections/models.py` lines 204-226).
`old` is the database row before the save (`none` when `is_new`), `n`
the in-memory instance being saved, `now` the value of `timezone.now()`.
Returns the stored row together with the number of notification emails
scheduled by this save (`Nominee.send_notification_email` enqueues one
task per call). -/
def nominationSave (old : Option Nomination) (n : Nomination) (now : Int) :
    Nomination × Nat :=
  let saved :=
    if n.draft = false ∧ n.nominator = n.nomineeUser ∧
        (old = none ∨ nominationWasDraft old = true) then
      if n.acceptanceStatus = AcceptanceStatus.pending then
        { n with acceptanceStatus := AcceptanceStatus.accepted,
                 acceptanceDate := some now }
      else n
    else n
  let notifications : Nat :=
    if n.draft = false ∧ (old = none ∨ nominationWasDraft old = true) ∧
        ¬(n.nominator = n.nomineeUser) then 1
    else 0
  (saved, notifications)

/-- The edit gate of `nomination_form` (`src/elections/views.py` lines
60-70): a loaded nomination may be edited only while it is a draft, or,
once submitted, only when it is a self-nomination that has not been
declined (withdrawn). -/
def canEditNomination (n : Nomination) : Bool :=
  if n.draft = false then
    if ¬(n.nominator = n.nomineeUser) then false
    else if n.acceptanceStatus = AcceptanceStatus.declined then false
    else true
  else true

/-- The `submit-nomination` branch of `nomination_form` for an existing
nomination (`src/elections/views.py` lines 117-172): if the nomination
is a self-nomination and the nominee profile is incomplete the record is
saved as a draft, otherwise it is saved with `draft=False`.  `none`
models the redirect issued when the edit gate rejects the request. -/
def submitNomination (n : Nomination) (newNominee : Nat)
    (profileComplete : Bool) (now : Int) : Option (Nomination × Nat) :=
  if canEditNomination n = false then none
  else if newNominee = n.nominator ∧ profileComplete = false then
    some (nominationSave (some n)
      { n with nomineeUser := newNominee, draft := true } now)
  else
    some (nominationSave (some n)
      { n with nomineeUser := newNominee, draft := false } now)

/-- The `submit-nomination` branch of `nomination_form` when no
nomination exists yet (`src/elections/views.py` lines 117-172, `pk`
absent): a fresh `Nomination` is created with the default
`acceptance_status=pending` and no acceptance date. -/
def submitNewNomination (nominator nomineeUser : Nat)
    (profileComplete : Bool) (now : Int) : Nomination × Nat :=
  if nomineeUser = nominator ∧ profileComplete = false then
    nominationSave none
      { nominator := nominator, nomineeUser := nomineeUser, draft := true,
        acceptanceStatus := AcceptanceStatus.pending, acceptanceDate := none }
      now
  else
    nominationSave none
      { nominator := nominator, nomineeUser := nomineeUser, draft := false,
        acceptanceStatus := AcceptanceStatus.pending, acceptanceDate := none }
      now

/-- The `save-draft` branch of `nomination_form` on an existing
nomination (`src/elections/views.py` lines 101-104): the nominee and the
statement are updated and the record is saved; the `draft` flag is not
touched. -/
def saveDraftExisting (n : Nomination) (newNominee : Nat) (now : Int) :
    Nomination × Nat :=
  nominationSave (some n) { n with nomineeUser := newNominee } now

inductive RespondAction
  | accept
  | decline
  | withdraw
deriving DecidableEq, Repr

/-- `nomination_respond` (`src/elections/views.py` lines 369-448).  The
view is reachable only for `draft=False` nominations (the lookup filters
on it); an `accept` on an incomplete nominee profile redirects without
saving; self-nominations admit only `withdraw`, which stores
`declined` with an acceptance timestamp; nominations from others admit
`accept` and `decline`. -/
def nominationRespond (n : Nomination) (action : RespondAction)
    (profileComplete : Bool) (now : Int) : Option (Nomination × Nat) :=
  if n.draft = true then none
  else if action = RespondAction.accept ∧ profileComplete = false then
    some (n, 0)
  else if n.nominator = n.nomineeUser then
    if action = RespondAction.withdraw then
      some (nominationSave (some n)
        { n with acceptanceStatus := AcceptanceStatus.declined,
                 acceptanceDate := some now } now)
    else some (n, 0)
  else
    if action = RespondAction.accept then
      some (nominationSave (some n)
        { n with acceptanceStatus := AcceptanceStatus.accepted,
                 acceptanceDate := some now } now)
    else if action = RespondAction.decline then
      some (nominationSave (some n)
        { n with acceptanceStatus := AcceptanceStatus.declined,
                 acceptanceDate := some now } now)
    else some (n, 0)

/-- The self-nomination auto-submit step of `nominee_profile_edit`
(`src/elections/views.py` lines 529-540): after the nominee profile is
saved, the referenced draft nomination (looked up with `draft=True`,
`nominator=request.user`, nominee record of the same user) is submitted
by setting `draft=False` and saving. -/
def completeProfileSubmit (n : Nomination) (now : Int) :
    Option (Nomination × Nat) :=
  if n.draft = true ∧ n.nominator = n.nomineeUser then
    some (nominationSave (some n) { n with draft := false } now)
  else none

/-- One lifecycle operation on an existing nomination, as dispatched by
the election views. -/
inductive LifecycleOp
  | saveDraft (newNominee : Nat)
  | submit (newNominee : Nat) (profileComplete : Bool)
  | respond (action : RespondAction) (profileComplete : Bool)
  | completeProfile
deriving DecidableEq, Repr

/-- Dispatch of a lifecycle operation on an existing nomination.  The
`save-draft` and `submit-nomination` branches sit behind the edit gate
of `nomination_form`; `respond` and the profile-completion auto-submit
carry their own lookup preconditions. -/
def lifecycleStep (op : LifecycleOp) (n : Nomination) (now : Int) :
    Option (Nomination × Nat) :=
  match op with
  | LifecycleOp.saveDraft newNominee =>
    if canEditNomination n = true then some (saveDraftExisting n newNominee now)
    else none
  | LifecycleOp.submit newNominee profileComplete =>
    submitNomination n newNominee profileComplete now
  | LifecycleOp.respond action profileComplete =>
    nominationRespond n action profileComplete now
  | LifecycleOp.completeProfile => completeProfileSubmit n now

/-! ## Membership eligibility: `Profile.eligible_as_of`
(`src/profiles/models.py` lines 150-297).

Dates are integer day numbers.  The profile data visible to the method:
the newest active/trialing Stripe subscription row (outer `none`: the
queryset `subscriptions` is empty; inner `Option Int`: its
`current_period_end` date, nullable), whether a Discord social account
is linked, the `DiscordActivity` rows as `(date, count)` pairs (`count`
is an `IntegerField`), and the `Membership` rows as
`(start_date, end_date)` pairs (both nullable `DateField`s; a SQL
comparison against NULL is false, so a NULL `start_date` never passes
`start_date__lte`). -/

inductive DonorStatus
  | inactive
  | activeRenewalRequired
  | activeStable
  | expiring
deriving DecidableEq, Repr

/-- The warning messages `eligible_as_of` can append, as tags carrying
the date each message interpolates. -/
inductive EligWarning
  | renewalNoBackup (renewal : Option Int)
  | renewalWithBackup (renewal : Option Int)
  | activityAgesOutNoBackup (cutoff : Int)
  | activityAgesOutWithBackup (cutoff : Int)
  | donationOnlyPostDiscord
  | donationOnlyConnectDiscord
  | discordOnlyBecomeDonor
deriving DecidableEq, Repr

structure ProfileData where
  latestSubscriptionEnd : Option (Option Int)
  hasDiscord : Bool
  discordActivity : List (Int × Int)
  memberships : List (Option Int × Option Int)
deriving DecidableEq, Repr

structure EligibilityResult where
  eligible : Bool
  donorStatus : DonorStatus
  donorNextRenewal : Option Int
  discordActive : Bool
  discordLastActivity : Option Int
  discordSufficientAlone : Bool
  donorSufficientAlone : Bool
  membershipSufficientAlone : Bool
  warnings : List EligWarning
  atRisk : Bool
deriving DecidableEq, Repr

/-- The donor-status section of `eligible_as_of` (lines 163-189):
given the newest active/trialing subscription, returns
`(donor_status, donor_next_renewal, donor_sufficient_alone)`. -/
def donorEvaluation (sub : Option (Option Int)) (now target : Int) :
    DonorStatus × Option Int × Bool :=
  match sub with
  | none => (DonorStatus.inactive, none, false)
  | some none => (DonorStatus.inactive, none, false)
  | some (some periodEnd) =>
    if target ≤ periodEnd then
      if now < periodEnd then
        if target ≤ periodEnd then
          if now < periodEnd ∧ periodEnd < target then
            (DonorStatus.activeRenewalRequired, some periodEnd, true)
          else (DonorStatus.activeStable, none, true)
        else (DonorStatus.inactive, none, true)
      else (DonorStatus.expiring, none, true)
    else (DonorStatus.inactive, none, false)

/-- The `DiscordActivity` rows dated within the 30-day window ending at
`target_date`, filter `date__gte=target-30, date__lte=target`
(lines 200-204). -/
def windowActivity (acts : List (Int × Int)) (target : Int) :
    List (Int × Int) :=
  acts.filter (fun r => decide (target - 30 ≤ r.1 ∧ r.1 ≤ target))

/-- The `Sum("count")` aggregate over a list of activity rows. -/
def sumCounts (l : List (Int × Int)) : Int :=
  l.foldl (fun a r => a + r.2) 0

/-- One step of the `Max("date")` aggregate. -/
def maxStep (acc : Option Int) (r : Int × Int) : Option Int :=
  match acc with
  | none => some r.1
  | some m => some (max m r.1)

/-- The `Max("date")` aggregate over a list of activity rows (`none` on
an empty list, like the SQL aggregate). -/
def maxDateAux (l : List (Int × Int)) : Option Int :=
  l.foldl maxStep none

/-- The Discord-activity section of `eligible_as_of` (lines 191-209):
returns `(discord_active, discord_last_activity,
discord_sufficient_alone)`. -/
def discordEvaluation (hasDiscord : Bool) (acts : List (Int × Int))
    (target : Int) : Bool × Option Int × Bool :=
  if hasDiscord = true then
    if 0 < sumCounts (windowActivity acts target) then
      (true, maxDateAux (windowActivity acts target), true)
    else (false, none, false)
  else (false, none, false)

/-- The membership-record check of `eligible_as_of` (lines 211-219):
a row with `start_date ≤ target` and (`end_date` NULL or
`end_date ≥ target`) exists. -/
def membershipActiveAt (ms : List (Option Int × Option Int))
    (target : Int) : Bool :=
  ms.any (fun m =>
    (match m.1 with
     | some s => decide (s ≤ target)
     | none => false) &&
    (match m.2 with
     | none => true
     | some e => decide (target ≤ e)))

/-- The renewal-risk warnings of `eligible_as_of` (lines 231-242),
applied to the initially empty warning list and `at_risk=False`. -/
def renewalWarnings (donorStatus : DonorStatus)
    (donorNextRenewal : Option Int) (discordSufficientAlone : Bool) :
    List EligWarning × Bool :=
  if donorStatus = DonorStatus.activeRenewalRequired ∧
      discordSufficientAlone = false then
    ([EligWarning.renewalNoBackup donorNextRenewal], true)
  else if donorStatus = DonorStatus.activeRenewalRequired ∧
      discordSufficientAlone = true then
    ([EligWarning.renewalWithBackup donorNextRenewal], false)
  else ([], false)

/-- The Discord-activity aging warnings of `eligible_as_of`
(lines 244-266), appended to the warnings accumulated so far. -/
def agingWarnings (s : List EligWarning × Bool)
    (discordSufficientAlone donorSufficientAlone : Bool)
    (discordLastActivity : Option Int) (now target : Int) :
    List EligWarning × Bool :=
  if discordSufficientAlone = true ∧ now < target then
    match discordLastActivity with
    | some lastActivity =>
      if lastActivity + 30 < target ∧ donorSufficientAlone = false then
        (s.1 ++ [EligWarning.activityAgesOutNoBackup (target - 30)], true)
      else if lastActivity + 30 < target ∧ donorSufficientAlone = true then
        (s.1 ++ [EligWarning.activityAgesOutWithBackup (target - 30)], s.2)
      else s
    | none => s
  else s

/-- The single-point-of-failure warnings of `eligible_as_of`
(lines 268-283), appended to the warnings accumulated so far and
skipped entirely when a membership record applies. -/
def spofWarnings (s : List EligWarning × Bool)
    (donorSufficientAlone discordSufficientAlone
     membershipSufficientAlone hasDiscord : Bool) :
    List EligWarning × Bool :=
  if membershipSufficientAlone = false then
    if donorSufficientAlone = true ∧ discordSufficientAlone = false then
      (s.1 ++ [if hasDiscord = true then EligWarning.donationOnlyPostDiscord
               else EligWarning.donationOnlyConnectDiscord], s.2)
    else if discordSufficientAlone = true ∧
        donorSufficientAlone = false then
      (s.1 ++ [EligWarning.discordOnlyBecomeDonor], s.2)
    else s
  else s

/-- The warning-generation section of `eligible_as_of` (lines 226-283):
returns the warning list together with the final `at_risk` flag. -/
def eligWarnings (donorStatus : DonorStatus) (donorNextRenewal : Option Int)
    (donorSufficientAlone discordSufficientAlone
     membershipSufficientAlone hasDiscord : Bool)
    (discordLastActivity : Option Int) (now target : Int)
    (eligible : Bool) : List EligWarning × Bool :=
  if eligible = true then
    spofWarnings
      (agingWarnings
        (renewalWarnings donorStatus donorNextRenewal discordSufficientAlone)
        discordSufficientAlone donorSufficientAlone discordLastActivity
        now target)
      donorSufficientAlone discordSufficientAlone membershipSufficientAlone
      hasDiscord
  else ([], false)

/-- `Profile.eligible_as_of` (`src/profiles/models.py` lines 150-297),
assembled from the four sections above exactly as the method computes
them. -/
def eligibleAsOf (p : ProfileData) (now target : Int) : EligibilityResult :=
  let d := donorEvaluation p.latestSubscriptionEnd now target
  let disc := discordEvaluation p.hasDiscord p.discordActivity target
  let mem := membershipActiveAt p.memberships target
  let eligible := d.2.2 || disc.2.2 || mem
  let wr := eligWarnings d.1 d.2.1 d.2.2 disc.2.2 mem p.hasDiscord disc.2.1
    now target eligible
  { eligible := eligible
    donorStatus := d.1
    donorNextRenewal := d.2.1
    discordActive := disc.1
    discordLastActivity := disc.2.1
    discordSufficientAlone := disc.2.2
    donorSufficientAlone := d.2.2
    membershipSufficientAlone := mem
    warnings := wr.1
    atRisk := wr.2 }

/-! ## Election results: `calculate_election_results`
(`src/elections/views.py` lines 749-991). -/

/-- The first maximal run of decimal digits in a character list, as
matched by `re.search(r"\d+", s)`. -/
def firstDigitRun : List Char → Option (List Char)
  | [] => none
  | ch :: rest =>
    if ch.isDigit then some (ch :: rest.takeWhile Char.isDigit)
    else firstDigitRun rest

/-- `int(...)` on a run of decimal digits. -/
def digitsToNat (l : List Char) : Nat :=
  l.foldl (fun a ch => a * 10 + (ch.toNat - 48)) 0

/-- `int(re.search(r"\d+", s).group())`, `none` when the name holds no
digit — the district-number extraction used throughout the results
code. -/
def extractDistrictNum (s : String) : Option Nat :=
  (firstDigitRun s.toList).map digitsToNat

/-- Whether `pat` occurs at the start of `s`. -/
def startsWithChars : List Char → List Char → Bool
  | [], _ => true
  | _ :: _, [] => false
  | p :: ps, c :: cs => p == c && startsWithChars ps cs

/-- Whether `pat` occurs as a contiguous substring of `s`. -/
def containsChars (s pat : List Char) : Bool :=
  match s with
  | [] => pat.isEmpty
  | _ :: rest => startsWithChars pat s || containsChars rest pat

/-- The Python test `str(num) in name` used by the district-seat loop to
decide residence and candidate home district: decimal-digit substring
containment in the district display name. -/
def nameContainsNum (num : Nat) (name : String) : Bool :=
  containsChars name.toList (Nat.toDigits 10 num)

/-- Modelled from the spec: a ballot row (`Ballot` with its
`candidate_votes`), a model class absent from the sources.  Per the
spec's data model a ballot belongs to a voter whose profile carries an
optional district facet (a display name), and holds one vote per
selected nominee; votes are stored as nominee ids. -/
structure BallotE where
  voterDistrict : Option String
  votes : List Nat
deriving DecidableEq, Repr

/-- A nominee as read by the results code: its id and the district
display name of the nominee's own profile. -/
structure NomineeE where
  id : Nat
  districtName : Option String
deriving DecidableEq, Repr

/-- Modelled from the spec: the seat-allocation parameters
`district_seat_min_voters`, `district_seat_min_votes` and
`at_large_seats_count` carried by `Election`; these fields are absent
from the `Election` model in the sources. -/
structure ElectionParams where
  districtSeatMinVoters : Nat
  districtSeatMinVotes : Nat
  atLargeSeatsCount : Nat
deriving DecidableEq, Repr

/-- `voter_district_num` for a ballot: the number extracted from the
voter's district name, `none` when the voter has no district or the
name holds no digit (lines 779-786, repeated at 922-951). -/
def districtNumOfName : Option String → Option Nat
  | none => none
  | some name => extractDistrictNum name

/-- All candidate votes across the ballots, in ballot order. -/
def allVotes (ballots : List BallotE) : List Nat :=
  (ballots.map (fun b => b.votes)).flatten

/-- `nominee_votes[nominee]`: total number of votes for the nominee id
across all ballots (lines 770-791). -/
def nomineeVotes (ballots : List BallotE) (nid : Nat) : Nat :=
  (allVotes ballots).count nid

/-- `nominee_district_votes[nominee][dnum]`: votes for the nominee from
ballots whose voter's extracted district number is `dnum`; a falsy
(zero or absent) extracted number is never recorded (lines 793-795). -/
def nomineeDistrictVotes (ballots : List BallotE) (nid dnum : Nat) : Nat :=
  ballots.foldl (fun a b =>
    match districtNumOfName b.voterDistrict with
    | some d => if d ≠ 0 ∧ d = dnum then a + b.votes.count nid else a
    | none => a) 0

/-- Nominee ids in order of first vote: the iteration order of the
`Counter` `nominee_votes`. -/
def orderedNomineeIds (ballots : List BallotE) : List Nat :=
  (allVotes ballots).foldl
    (fun acc x => if x ∈ acc then acc else acc ++ [x]) []

def findNominee (nominees : List NomineeE) (nid : Nat) : Option NomineeE :=
  nominees.find? (fun nm => nm.id == nid)

/-- Insert into a sorted list of district numbers. -/
def insertSorted (x : Nat) : List Nat → List Nat
  | [] => [x]
  | y :: ys => if x ≤ y then x :: y :: ys else y :: insertSorted x ys

/-- `sorted(set(...))` over the numbers extracted from the district
facet names (lines 806-811).  The facet name list stands in for
`DistrictFacet.objects.all()`; the `District` facet model is absent
from the sources, the spec describes it as a display name embedding a
numeric identifier. -/
def districtNumbers (facetNames : List String) : List Nat :=
  ((facetNames.filterMap extractDistrictNum).foldl
    (fun acc x => if x ∈ acc then acc else acc ++ [x]) []).foldr
    insertSorted []

structure DistrictSeat where
  districtNum : Nat
  winner : NomineeE
  totalVotes : Nat
  districtVotes : Nat
deriving DecidableEq, Repr

/-- The district-seat allocation loop of `calculate_election_results`
(`src/elections/views.py` lines 797-850).  For each district number:
count the ballots whose voter's district name contains the decimal
digits of the number; if at least `district_seat_min_voters`, collect
the voted-for nominees whose own district name contains those digits
and whose in-district vote count reaches `district_seat_min_votes`, and
award the seat to the collected candidate with the most total votes
(first such candidate on a tie, as Python's `max`). -/
def calculateDistrictSeats (params : ElectionParams)
    (facetNames : List String) (nominees : List NomineeE)
    (ballots : List BallotE) : List DistrictSeat :=
  let ordered := (orderedNomineeIds ballots).filterMap (findNominee nominees)
  (districtNumbers facetNames).foldl (fun seats dnum =>
    let votersInDistrict :=
      (ballots.filter (fun b =>
        match b.voterDistrict with
        | some name => nameContainsNum dnum name
        | none => false)).length
    if params.districtSeatMinVoters ≤ votersInDistrict then
      let cands := ordered.filterMap (fun nm =>
        match nm.districtName with
        | some name =>
          if nameContainsNum dnum name then
            let dv := nomineeDistrictVotes ballots nm.id dnum
            if params.districtSeatMinVotes ≤ dv then
              some (nm, nomineeVotes ballots nm.id, dv)
            else none
          else none
        | none => none)
      match cands with
      | [] => seats
      | c :: rest =>
        let winner := rest.foldl
          (fun best x => if best.2.1 < x.2.1 then x else best) c
        seats ++ [{ districtNum := dnum, winner := winner.1,
                    totalVotes := winner.2.1, districtVotes := winner.2.2 }]
    else seats) []

/-- One row of the district turnout report. -/
structure TurnoutRow where
  districtNum : Option Nat
  eligibleVoters : Nat
  ballotsCast : Nat
  turnoutRate : Option ℚ
deriving DecidableEq, Repr

/-- Eligible voters falling in a turnout bucket: profiles are bucketed
by the number extracted from their district name, with district-less
profiles and digit-less names in the `none` bucket (lines 920-934). -/
def eligibleCountForKey (profiles : List (Option String))
    (key : Option Nat) : Nat :=
  (profiles.filter (fun p => decide (districtNumOfName p = key))).length

/-- Ballots falling in a turnout bucket, same bucketing as eligible
voters (lines 936-951). -/
def ballotsCountForKey (ballots : List BallotE) (key : Option Nat) : Nat :=
  (ballots.filter (fun b =>
    decide (districtNumOfName b.voterDistrict = key))).length

/-- One turnout row (lines 955-981): the rate is
`ballots_cast / eligible * 100` when the bucket has eligible voters and
null otherwise. -/
def turnoutRow (profiles : List (Option String)) (ballots : List BallotE)
    (key : Option Nat) : TurnoutRow :=
  let e := eligibleCountForKey profiles key
  let b := ballotsCountForKey ballots key
  { districtNum := key
    eligibleVoters := e
    ballotsCast := b
    turnoutRate := if 0 < e then some ((b : ℚ) / (e : ℚ) * 100) else none }

/-- The district turnout report of `calculate_election_results`
(lines 953-981): one row per district number 1-10 plus the
no-district row.  `profiles` stands in for
`election.get_eligible_voters()` (the eligible voters' district names),
a queryset whose defining method is absent from the sources. -/
def districtTurnout (profiles : List (Option String))
    (ballots : List BallotE) : List TurnoutRow :=
  ((List.range 10).map (fun i => turnoutRow profiles ballots (some (i + 1))))
    ++ [turnoutRow profiles ballots none]

/-! ## Helper lemmas -/

lemma nominationSave_draft (old : Option Nomination) (n : Nomination)
    (now : Int) : (nominationSave old n now).1.draft = n.draft := by
  unfold nominationSave
  split_ifs <;> rfl

lemma donorEvaluation_ne_renewal (sub : Option (Option Int))
    (now target : Int) :
    (donorEvaluation sub now target).1 ≠
      DonorStatus.activeRenewalRequired := by
  rcases sub with _ | (_ | periodEnd)
  · simp [donorEvaluation]
  · simp [donorEvaluation]
  · simp only [donorEvaluation]
    split_ifs with h1 h2 h3 h4 <;> simp <;> omega

lemma windowActivity_date_ge (acts : List (Int × Int)) (target : Int) :
    ∀ r ∈ windowActivity acts target, target - 30 ≤ r.1 := by
  intro r hr
  unfold windowActivity at hr
  rw [List.mem_filter] at hr
  exact (of_decide_eq_true hr.2).1

lemma foldl_maxStep_ge (lo : Int) :
    ∀ (l : List (Int × Int)) (acc : Option Int),
      (∀ r ∈ l, lo ≤ r.1) → (∀ a, acc = some a → lo ≤ a) →
      ∀ x, l.foldl maxStep acc = some x → lo ≤ x := by
  intro l
  induction l with
  | nil =>
    intro acc h1 h2 x hx
    exact h2 x hx
  | cons r rs ih =>
    intro acc h1 h2 x hx
    rw [List.foldl_cons] at hx
    refine ih (maxStep acc r)
      (fun r' hr' => h1 r' (List.mem_cons_of_mem _ hr')) ?_ x hx
    intro a ha
    rcases acc with _ | m <;> simp only [maxStep] at ha
    · have := Option.some.inj ha
      subst this
      exact h1 r (List.mem_cons_self _ _)
    · have := Option.some.inj ha
      subst this
      exact le_trans (h2 m rfl) (le_max_left _ _)

lemma maxDateAux_ge (l : List (Int × Int)) (lo : Int)
    (h : ∀ r ∈ l, lo ≤ r.1) :
    ∀ x, maxDateAux l = some x → lo ≤ x :=
  foldl_maxStep_ge lo l none h (fun a ha => by cases ha)

lemma foldl_maxStep_some (l : List (Int × Int)) :
    ∀ m : Int, ∃ x, l.foldl maxStep (some m) = some x := by
  induction l with
  | nil => exact fun m => ⟨m, rfl⟩
  | cons r rs ih =>
    intro m
    rw [List.foldl_cons]
    simpa only [maxStep] using ih (max m r.1)

lemma maxDateAux_some_of_ne_nil (l : List (Int × Int)) (h : l ≠ []) :
    ∃ x, maxDateAux l = some x := by
  rcases l with _ | ⟨r, rs⟩
  · exact absurd rfl h
  · unfold maxDateAux
    rw [List.foldl_cons]
    simpa only [maxStep] using foldl_maxStep_some rs r.1

lemma sumCounts_pos_ne_nil (l : List (Int × Int))
    (h : 0 < sumCounts l) : l ≠ [] := by
  intro he
  subst he
  simp [sumCounts] at h

lemma discordEvaluation_last_bound (hd : Bool) (acts : List (Int × Int))
    (target la : Int)
    (h : (discordEvaluation hd acts target).2.1 = some la) :
    target - 30 ≤ la := by
  unfold discordEvaluation at h
  split_ifs at h with h1 h2
  exact maxDateAux_ge _ _ (windowActivity_date_ge acts target) la h

lemma discordEvaluation_suff_some (hd : Bool) (acts : List (Int × Int))
    (target : Int)
    (h : (discordEvaluation hd acts target).2.2 = true) :
    ∃ la, (discordEvaluation hd acts target).2.1 = some la ∧
      target - 30 ≤ la := by
  unfold discordEvaluation at h ⊢
  split_ifs at h ⊢ with h1 h2
  obtain ⟨x, hx⟩ :=
    maxDateAux_some_of_ne_nil _ (sumCounts_pos_ne_nil _ h2)
  exact ⟨x, hx, maxDateAux_ge _ _ (windowActivity_date_ge acts target) x hx⟩

lemma renewalWarnings_of_ne (ds : DonorStatus) (dr : Option Int)
    (discSuf : Bool) (h1 : ds ≠ DonorStatus.activeRenewalRequired) :
    renewalWarnings ds dr discSuf = ([], false) := by
  unfold renewalWarnings
  split_ifs with a b
  · exact absurd a.1 h1
  · exact absurd b.1 h1
  · rfl

lemma agingWarnings_skip (s : List EligWarning × Bool)
    (discSuf dsuf : Bool) (dl : Option Int) (now target : Int)
    (h2 : ∀ la, dl = some la → target ≤ la + 30) :
    agingWarnings s discSuf dsuf dl now target = s := by
  unfold agingWarnings
  rcases dl with _ | la
  · split_ifs <;> rfl
  · have hb := h2 la rfl
    dsimp only
    split_ifs <;> first
      | rfl
      | (exfalso; omega)

lemma spofWarnings_member (s : List EligWarning × Bool)
    (dsuf discSuf hd : Bool) :
    spofWarnings s dsuf discSuf true hd = s := by
  unfold spofWarnings
  split_ifs <;> simp_all

lemma eligWarnings_empty (ds : DonorStatus) (dr : Option Int)
    (dsuf discSuf hd : Bool) (dl : Option Int) (now target : Int)
    (elig : Bool)
    (h1 : ds ≠ DonorStatus.activeRenewalRequired)
    (h2 : ∀ la, dl = some la → target ≤ la + 30) :
    eligWarnings ds dr dsuf discSuf true hd dl now target elig =
      ([], false) := by
  unfold eligWarnings
  rw [renewalWarnings_of_ne ds dr discSuf h1,
    agingWarnings_skip _ discSuf dsuf dl now target h2,
    spofWarnings_member]
  split_ifs <;> rfl

lemma spofWarnings_mem_of_mem (s : List EligWarning × Bool)
    (dsuf discSuf memSuf hd : Bool) (w : EligWarning)
    (hw : w ∈ (spofWarnings s dsuf discSuf memSuf hd).1) :
    w ∈ s.1 ∨ w = EligWarning.donationOnlyPostDiscord ∨
      w = EligWarning.donationOnlyConnectDiscord ∨
      w = EligWarning.discordOnlyBecomeDonor := by
  unfold spofWarnings at hw
  split_ifs at hw <;> simp_all <;> tauto

lemma renewalWarnings_no_aging (ds : DonorStatus) (dr : Option Int)
    (discSuf : Bool) (c : Int) :
    EligWarning.activityAgesOutNoBackup c ∉
      (renewalWarnings ds dr discSuf).1 ∧
    EligWarning.activityAgesOutWithBackup c ∉
      (renewalWarnings ds dr discSuf).1 := by
  unfold renewalWarnings
  split_ifs <;> simp

lemma eligWarnings_no_aging (ds : DonorStatus) (dr : Option Int)
    (dsuf discSuf memSuf hd : Bool) (dl : Option Int) (now target : Int)
    (elig : Bool) (c : Int)
    (h2 : ∀ la, dl = some la → target ≤ la + 30) :
    EligWarning.activityAgesOutNoBackup c ∉
      (eligWarnings ds dr dsuf discSuf memSuf hd dl now target elig).1 ∧
    EligWarning.activityAgesOutWithBackup c ∉
      (eligWarnings ds dr dsuf discSuf memSuf hd dl now target elig).1 := by
  unfold eligWarnings
  split_ifs
  · rw [agingWarnings_skip _ discSuf dsuf dl now target h2]
    have hr := renewalWarnings_no_aging ds dr discSuf c
    constructor
    · intro hw
      rcases spofWarnings_mem_of_mem _ _ _ _ _ _ hw with h | h | h | h
      · exact hr.1 h
      · exact EligWarning.noConfusion h
      · exact EligWarning.noConfusion h
      · exact EligWarning.noConfusion h
    · intro hw
      rcases spofWarnings_mem_of_mem _ _ _ _ _ _ hw with h | h | h | h
      · exact hr.2 h
      · exact EligWarning.noConfusion h
      · exact EligWarning.noConfusion h
      · exact EligWarning.noConfusion h
  · simp

lemma eligibleAsOf_no_aging (p : ProfileData) (now target c : Int) :
    EligWarning.activityAgesOutNoBackup c ∉
      (eligibleAsOf p now target).warnings ∧
    EligWarning.activityAgesOutWithBackup c ∉
      (eligibleAsOf p now target).warnings := by
  have h2 : ∀ la,
      (discordEvaluation p.hasDiscord p.discordActivity target).2.1 =
        some la → target ≤ la + 30 := by
    intro la hla
    have := discordEvaluation_last_bound p.hasDiscord p.discordActivity
      target la hla
    omega
  simp only [eligibleAsOf]
  exact eligWarnings_no_aging _ _ _ _ _ _ _ now target _ c h2

/-! ## Claim theorems -/

/-- Claim C2: submitting (saving with `draft=False`) a self-nomination
whose nominee profile is complete — whether the nomination is created
fresh or an existing draft is submitted — immediately stores
`acceptance_status=accepted` with acceptance timestamp `now`, and
schedules zero notifications. -/
theorem selfNominationAutoAccept (u : Nat) (now : Int) (n : Nomination) :
    ((submitNewNomination u u true now).1.acceptanceStatus =
        AcceptanceStatus.accepted ∧
     (submitNewNomination u u true now).1.acceptanceDate = some now ∧
     (submitNewNomination u u true now).2 = 0) ∧
    (n.draft = true → n.nominator = u → n.nomineeUser = u →
      n.acceptanceStatus = AcceptanceStatus.pending →
      ∃ n', submitNomination n u true now = some (n', 0) ∧
        n'.acceptanceStatus = AcceptanceStatus.accepted ∧
        n'.acceptanceDate = some now ∧ n'.draft = false) := by
  constructor
  · simp [submitNewNomination, nominationSave]
  · intro hd hn hm hp
    have hc : canEditNomination n = true := by
      unfold canEditNomination
      rw [if_neg (by simp [hd])]
    refine ⟨{ n with nomineeUser := u, draft := false,
                     acceptanceStatus := AcceptanceStatus.accepted,
                     acceptanceDate := some now }, ?_, rfl, rfl, rfl⟩
    simp [submitNomination, hc, nominationSave, nominationWasDraft,
      hd, hn, hm, hp]

/-- Claim C2 witness: the theorem applied to user 1 submitting their
own draft nomination at time 3. -/
theorem selfNominationAutoAcceptWitness :
    ((submitNewNomination 1 1 true 3).1.acceptanceStatus =
        AcceptanceStatus.accepted ∧
     (submitNewNomination 1 1 true 3).1.acceptanceDate = some 3 ∧
     (submitNewNomination 1 1 true 3).2 = 0) ∧
    (∃ n', submitNomination
        { nominator := 1, nomineeUser := 1, draft := true,
          acceptanceStatus := AcceptanceStatus.pending,
          acceptanceDate := none } 1 true 3 = some (n', 0) ∧
      n'.acceptanceStatus = AcceptanceStatus.accepted ∧
      n'.acceptanceDate = some 3 ∧ n'.draft = false) := by
  have h := selfNominationAutoAccept 1 3
    { nominator := 1, nomineeUser := 1, draft := true,
      acceptanceStatus := AcceptanceStatus.pending, acceptanceDate := none }
  exact ⟨h.1, h.2 rfl rfl rfl rfl⟩

/-- Claim C3: every save that transitions a non-self nomination into
the submitted state (new row, or a row that was a draft) schedules
exactly one notification and leaves the acceptance status untouched
(pending stays pending); a save of an already-submitted row schedules
no notification. -/
theorem nonSelfSubmissionNotification (old : Option Nomination)
    (n : Nomination) (now : Int)
    (hns : ¬(n.nominator = n.nomineeUser)) (hd : n.draft = false) :
    ((old = none ∨ nominationWasDraft old = true) →
      (nominationSave old n now).2 = 1 ∧
      (nominationSave old n now).1.acceptanceStatus = n.acceptanceStatus ∧
      (n.acceptanceStatus = AcceptanceStatus.pending →
        (nominationSave old n now).1.acceptanceStatus =
          AcceptanceStatus.pending)) ∧
    (∀ o, old = some o → o.draft = false →
      (nominationSave old n now).2 = 0) := by
  constructor
  · intro htr
    refine ⟨?_, ?_, ?_⟩
    · simp [nominationSave, hd, hns, htr]
    · simp [nominationSave, hns]
    · intro hp
      simp [nominationSave, hns, hp]
  · intro o ho hod
    subst ho
    simp [nominationSave, nominationWasDraft, hod]

/-- Claim C3 witness: user 1 submits a fresh nomination of user 2 at
time 4, then the stored row is saved again. -/
theorem nonSelfSubmissionNotificationWitness :
    ((none = (none : Option Nomination) ∨
        nominationWasDraft none = true) →
      (nominationSave none
        { nominator := 1, nomineeUser := 2, draft := false,
          acceptanceStatus := AcceptanceStatus.pending,
          acceptanceDate := none } 4).2 = 1 ∧
      (nominationSave none
        { nominator := 1, nomineeUser := 2, draft := false,
          acceptanceStatus := AcceptanceStatus.pending,
          acceptanceDate := none } 4).1.acceptanceStatus =
        AcceptanceStatus.pending ∧
      (AcceptanceStatus.pending = AcceptanceStatus.pending →
        (nominationSave none
          { nominator := 1, nomineeUser := 2, draft := false,
            acceptanceStatus := AcceptanceStatus.pending,
            acceptanceDate := none } 4).1.acceptanceStatus =
          AcceptanceStatus.pending)) ∧
    (∀ o, (none : Option Nomination) = some o → o.draft = false →
      (nominationSave none
        { nominator := 1, nomineeUser := 2, draft := false,
          acceptanceStatus := AcceptanceStatus.pending,
          acceptanceDate := none } 4).2 = 0) := by
  exact nonSelfSubmissionNotification none
    { nominator := 1, nomineeUser := 2, draft := false,
      acceptanceStatus := AcceptanceStatus.pending, acceptanceDate := none }
    4 (by decide) rfl

/-- Claim C7 counterexample: the claim that `draft` never transitions
from `false` back to `true` fails.  A submitted, auto-accepted
self-nomination (user 7) passes the edit gate, and re-submitting it
while the nominee profile is incomplete saves it with `draft=True`
again. -/
theorem draftFlipCounterexample :
    (lifecycleStep (LifecycleOp.submit 7 false)
      { nominator := 7, nomineeUser := 7, draft := false,
        acceptanceStatus := AcceptanceStatus.accepted,
        acceptanceDate := some 0 } 5
    = some ({ nominator := 7, nomineeUser := 7, draft := true,
              acceptanceStatus := AcceptanceStatus.accepted,
              acceptanceDate := some 0 }, 0)) ∧
    ({ nominator := 7, nomineeUser := 7, draft := false,
       acceptanceStatus := AcceptanceStatus.accepted,
       acceptanceDate := some 0 : Nomination }).draft = false := by
  constructor
  · rfl
  · rfl

/-- Claim C7 (amended): across the lifecycle operations, the `draft`
flag transitions from `false` to `true` only when a submitted
self-nomination is re-submitted with the nominee themselves selected
while the nominee profile is incomplete (the view demotes it to a
draft); every other operation preserves `draft=false`. -/
theorem draftFlipCharacterization (op : LifecycleOp) (n : Nomination)
    (now : Int) (n' : Nomination) (k : Nat)
    (hstep : lifecycleStep op n now = some (n', k))
    (hold : n.draft = false) (hnew : n'.draft = true) :
    ∃ newNominee, op = LifecycleOp.submit newNominee false ∧
      newNominee = n.nominator := by
  cases op with
  | saveDraft newNominee =>
    exfalso
    simp only [lifecycleStep, saveDraftExisting] at hstep
    split_ifs at hstep
    have hdr := congrArg (fun y => y.1.draft) (Option.some.inj hstep)
    simp [nominationSave_draft, hold, hnew] at hdr
  | submit newNominee profileComplete =>
    simp only [lifecycleStep, submitNomination] at hstep
    split_ifs at hstep with h1 h2
    · exact ⟨newNominee, by rw [h2.2], h2.1⟩
    · exfalso
      have hdr := congrArg (fun y => y.1.draft) (Option.some.inj hstep)
      simp [nominationSave_draft, hold, hnew] at hdr
  | respond action profileComplete =>
    exfalso
    simp only [lifecycleStep, nominationRespond] at hstep
    split_ifs at hstep <;>
      (have hdr := congrArg (fun y => y.1.draft) (Option.some.inj hstep)
       simp [nominationSave_draft, hold, hnew] at hdr)
  | completeProfile =>
    exfalso
    simp only [lifecycleStep, completeProfileSubmit] at hstep
    split_ifs at hstep with h1
    rw [hold] at h1
    exact Bool.false_ne_true h1.1

/-- Claim C7 (amended) witness: the characterization applied to the
counterexample step. -/
theorem draftFlipCharacterizationWitness :
    ∃ newNominee, LifecycleOp.submit 7 false =
        LifecycleOp.submit newNominee false ∧ newNominee = 7 := by
  have h := draftFlipCharacterization (LifecycleOp.submit 7 false)
    { nominator := 7, nomineeUser := 7, draft := false,
      acceptanceStatus := AcceptanceStatus.accepted,
      acceptanceDate := some 0 } 5
    { nominator := 7, nomineeUser := 7, draft := true,
      acceptanceStatus := AcceptanceStatus.accepted,
      acceptanceDate := some 0 } 0 rfl rfl rfl
  exact h

/-- Claim C8: withdrawing an accepted self-nomination stores
`declined` with an acceptance timestamp, and afterwards the edit gate
rejects every edit attempt — whatever nominee is selected and even
with a complete nominee profile. -/
theorem withdrawnSelfNominationImmutable (n : Nomination) (pc : Bool)
    (now now2 : Int)
    (hself : n.nominator = n.nomineeUser) (hd : n.draft = false)
    (hacc : n.acceptanceStatus = AcceptanceStatus.accepted) :
    ∃ n', nominationRespond n RespondAction.withdraw pc now =
        some (n', 0) ∧
      n'.acceptanceStatus = AcceptanceStatus.declined ∧
      n'.acceptanceDate = some now ∧
      canEditNomination n' = false ∧
      (∀ newNominee pc2,
        submitNomination n' newNominee pc2 now2 = none) := by
  refine ⟨{ n with acceptanceStatus := AcceptanceStatus.declined,
                   acceptanceDate := some now }, ?_, rfl, rfl, ?_, ?_⟩
  · simp [nominationRespond, hd, hself, nominationSave,
      nominationWasDraft]
  · simp [canEditNomination, hd, hself]
  · intro newNominee pc2
    simp [submitNomination, canEditNomination, hd, hself]

/-- Claim C8 witness: user 1 withdraws their accepted self-nomination
at time 2, and edit attempts at time 3 are rejected. -/
theorem withdrawnSelfNominationImmutableWitness :
    ∃ n', nominationRespond
        { nominator := 1, nomineeUser := 1, draft := false,
          acceptanceStatus := AcceptanceStatus.accepted,
          acceptanceDate := some 0 } RespondAction.withdraw true 2 =
        some (n', 0) ∧
      n'.acceptanceStatus = AcceptanceStatus.declined ∧
      n'.acceptanceDate = some 2 ∧
      canEditNomination n' = false ∧
      (∀ newNominee pc2, submitNomination n' newNominee pc2 3 = none) := by
  exact withdrawnSelfNominationImmutable
    { nominator := 1, nomineeUser := 1, draft := false,
      acceptanceStatus := AcceptanceStatus.accepted,
      acceptanceDate := some 0 } true 2 3 rfl rfl rfl

/-- Claim C10: `Nomination.save` auto-accepts only pending
self-nominations; saving a declined self-nomination with `draft=False`
leaves the row unchanged, so its status stays `declined`. -/
theorem declinedSelfNominationStaysDeclined (old : Option Nomination)
    (n : Nomination) (now : Int)
    (hself : n.nominator = n.nomineeUser) (hd : n.draft = false)
    (hdec : n.acceptanceStatus = AcceptanceStatus.declined) :
    (nominationSave old n now).1 = n ∧
    (nominationSave old n now).1.acceptanceStatus =
      AcceptanceStatus.declined := by
  have h1 : (nominationSave old n now).1 = n := by
    unfold nominationSave
    split_ifs with h2 h3 <;>
      first
      | rfl
      | (rw [hdec] at h3; exact absurd h3 (by decide))
  exact ⟨h1, by rw [h1, hdec]⟩

/-- Claim C10 witness: re-saving a withdrawn (declined) self-nomination
of user 1 as non-draft at time 9 leaves it declined. -/
theorem declinedSelfNominationStaysDeclinedWitness :
    (nominationSave
      (some { nominator := 1, nomineeUser := 1, draft := true,
              acceptanceStatus := AcceptanceStatus.declined,
              acceptanceDate := some 5 })
      { nominator := 1, nomineeUser := 1, draft := false,
        acceptanceStatus := AcceptanceStatus.declined,
        acceptanceDate := some 5 } 9).1 =
      { nominator := 1, nomineeUser := 1, draft := false,
        acceptanceStatus := AcceptanceStatus.declined,
        acceptanceDate := some 5 } ∧
    (nominationSave
      (some { nominator := 1, nomineeUser := 1, draft := true,
              acceptanceStatus := AcceptanceStatus.declined,
              acceptanceDate := some 5 })
      { nominator := 1, nomineeUser := 1, draft := false,
        acceptanceStatus := AcceptanceStatus.declined,
        acceptanceDate := some 5 } 9).1.acceptanceStatus =
      AcceptanceStatus.declined := by
  exact declinedSelfNominationStaysDeclined _ _ 9 rfl rfl rfl

/-- Claim C4: when a membership record (special-recognition grant) is
active at the target instant — `start ≤ t` and `end` null or `≥ t` —
and the donor path and the community-activity path are both also
sufficient at `t` as computed by `eligible_as_of`, the returned
warnings list is empty: the membership path suppresses every
backup-path warning. -/
theorem membershipSuppressesWarnings (p : ProfileData) (now target : Int)
    (ms me : Option Int)
    (hmem : (ms, me) ∈ p.memberships)
    (hstart : ∃ s, ms = some s ∧ s ≤ target)
    (hend : me = none ∨ ∃ e, me = some e ∧ target ≤ e)
    (hdonor : (eligibleAsOf p now target).donorSufficientAlone = true)
    (hdisc : (eligibleAsOf p now target).discordSufficientAlone = true) :
    (eligibleAsOf p now target).warnings = [] := by
  have hm : membershipActiveAt p.memberships target = true := by
    unfold membershipActiveAt
    rw [List.any_eq_true]
    refine ⟨(ms, me), hmem, ?_⟩
    obtain ⟨s, hs, hsle⟩ := hstart
    subst hs
    rcases hend with he | ⟨e, he, hele⟩ <;> subst he <;> simp [hsle, *]
  have hbound : ∀ la,
      (discordEvaluation p.hasDiscord p.discordActivity target).2.1 =
        some la → target ≤ la + 30 := by
    intro la hla
    have := discordEvaluation_last_bound p.hasDiscord p.discordActivity
      target la hla
    omega
  simp only [eligibleAsOf]
  rw [hm]
  rw [eligWarnings_empty _ _ _ _ _ _ now target _
    (donorEvaluation_ne_renewal _ _ _) hbound]

/-- Claim C4 witness: a member with an open-ended grant from day 0, a
subscription covering day 100 and Discord activity on day 90, checked
on day 50 for target day 100. -/
theorem membershipSuppressesWarningsWitness :
    (eligibleAsOf
      { latestSubscriptionEnd := some (some 100), hasDiscord := true,
        discordActivity := [(90, 1)], memberships := [(some 0, none)] }
      50 100).warnings = [] := by
  exact membershipSuppressesWarnings _ 50 100 (some 0) none
    (by decide)
    ⟨0, rfl, by decide⟩
    (Or.inl rfl)
    (by decide)
    (by decide)

/-- Claim C5 counterexample: the claim asserts some input makes
`eligible_as_of` emit the activity-ages-out warning, but no input
does: activity sufficiency is computed over the window ending at
`target_date`, so the most recent qualifying activity always lies
within 30 days of `target_date` and the aging branch can never fire. -/
theorem agingWarningCounterexample :
    ¬ ∃ (p : ProfileData) (now target cutoff : Int),
        EligWarning.activityAgesOutNoBackup cutoff ∈
          (eligibleAsOf p now target).warnings := by
  rintro ⟨p, now, target, cutoff, hc⟩
  exact (eligibleAsOf_no_aging p now target cutoff).1 hc

/-- Claim C5 (amended): `eligible_as_of` never produces the
new-activity-required (ages-out) warning.  Whenever the
community-activity path is sufficient, the last qualifying activity is
at most 30 days before `target_date`, so the computed
`activity_valid_until` is never earlier than the target and the
warning branch is unreachable; the claimed implication holds only
vacuously. -/
theorem agingWarningUnreachable (p : ProfileData)
    (now target cutoff : Int) :
    EligWarning.activityAgesOutNoBackup cutoff ∉
      (eligibleAsOf p now target).warnings ∧
    ((eligibleAsOf p now target).discordSufficientAlone = true →
      ∃ la, (eligibleAsOf p now target).discordLastActivity = some la ∧
        target ≤ la + 30) := by
  constructor
  · exact (eligibleAsOf_no_aging p now target cutoff).1
  · intro h
    simp only [eligibleAsOf] at h ⊢
    obtain ⟨la, hla, hb⟩ :=
      discordEvaluation_suff_some p.hasDiscord p.discordActivity target h
    exact ⟨la, hla, by omega⟩

/-- Claim C5 (amended) witness: a member whose only activity is on day
95, checked on day 50 for target day 100: the activity path is
sufficient, its last activity is within 30 days of the target, and no
ages-out warning appears. -/
theorem agingWarningUnreachableWitness :
    EligWarning.activityAgesOutNoBackup 0 ∉
      (eligibleAsOf
        { latestSubscriptionEnd := none, hasDiscord := true,
          discordActivity := [(95, 1)], memberships := [] } 50 100).warnings ∧
    (∃ la, (eligibleAsOf
        { latestSubscriptionEnd := none, hasDiscord := true,
          discordActivity := [(95, 1)], memberships := [] }
        50 100).discordLastActivity = some la ∧ (100 : Int) ≤ la + 30) := by
  have h := agingWarningUnreachable
    { latestSubscriptionEnd := none, hasDiscord := true,
      discordActivity := [(95, 1)], memberships := [] } 50 100 0
  exact ⟨h.1, h.2 (by decide)⟩

/-- Claim C6: with a linked Discord account, a single activity record
dated exactly 30 days before `target_date` makes the
community-activity path sufficient, while a single record dated
exactly 31 days before does not: the 30-day window is inclusive on
both ends. -/
theorem activityWindowBoundary (now target c : Int) (hc : 0 < c) :
    (eligibleAsOf
      { latestSubscriptionEnd := none, hasDiscord := true,
        discordActivity := [(target - 30, c)], memberships := [] }
      now target).discordSufficientAlone = true ∧
    (eligibleAsOf
      { latestSubscriptionEnd := none, hasDiscord := true,
        discordActivity := [(target - 31, c)], memberships := [] }
      now target).discordSufficientAlone = false := by
  constructor
  · have hf : decide (target - 30 ≤ target - 30 ∧ target - 30 ≤ target)
        = true := by
      rw [decide_eq_true_eq]
      omega
    simp only [eligibleAsOf, discordEvaluation, windowActivity,
      List.filter_cons, hf, List.filter_nil, if_true, sumCounts,
      List.foldl_cons, List.foldl_nil]
    rw [if_pos (by omega : (0 : Int) < 0 + c)]
  · have hf : decide (target - 30 ≤ target - 31 ∧ target - 31 ≤ target)
        = false := by
      rw [decide_eq_false_iff_not]
      intro hcon
      omega
    simp only [eligibleAsOf, discordEvaluation, windowActivity,
      List.filter_cons, hf, List.filter_nil, if_false, sumCounts,
      List.foldl_nil]
    simp

/-- Claim C6 witness: the boundary theorem at target day 0 with one
message. -/
theorem activityWindowBoundaryWitness :
    (eligibleAsOf
      { latestSubscriptionEnd := none, hasDiscord := true,
        discordActivity := [(0 - 30, 1)], memberships := [] }
      0 0).discordSufficientAlone = true ∧
    (eligibleAsOf
      { latestSubscriptionEnd := none, hasDiscord := true,
        discordActivity := [(0 - 31, 1)], memberships := [] }
      0 0).discordSufficientAlone = false := by
  exact activityWindowBoundary 0 0 1 (by decide)

/-- Claim C1 (bug evaluation): the district-seat loop decides residence
and candidate home district by decimal-substring containment in the
district display name, not by equality of the extracted district
number.  With districts "District 1" and "District 10", one ballot from
a District 1 voter for the sole candidate — whose home district is
"District 10" — the District 1 seat is awarded to that candidate, whose
extracted home district number is 10, not 1, contradicting the claim
that the winner's home district equals the seat's district number. -/
theorem districtSeatSubstringBug :
    calculateDistrictSeats
      { districtSeatMinVoters := 1, districtSeatMinVotes := 1,
        atLargeSeatsCount := 1 }
      ["District 1", "District 10"]
      [{ id := 1, districtName := some "District 10" }]
      [{ voterDistrict := some "District 1", votes := [1] }]
    = [{ districtNum := 1,
         winner := { id := 1, districtName := some "District 10" },
         totalVotes := 1, districtVotes := 1 }] ∧
    extractDistrictNum "District 10" = some 10 ∧
    extractDistrictNum "District 1" = some 1 := by
  exact ⟨rfl, rfl, rfl⟩

lemma turnoutRow_spec (profiles : List (Option String))
    (ballots : List BallotE) (key : Option Nat) :
    ((turnoutRow profiles ballots key).eligibleVoters = 0 →
      (turnoutRow profiles ballots key).turnoutRate = none) ∧
    (0 < (turnoutRow profiles ballots key).eligibleVoters →
      (turnoutRow profiles ballots key).turnoutRate =
        some (((turnoutRow profiles ballots key).ballotsCast : ℚ) /
          ((turnoutRow profiles ballots key).eligibleVoters : ℚ) * 100)) := by
  unfold turnoutRow
  dsimp only
  constructor
  · intro h0
    simp [h0]
  · intro h
    simp [h]

/-- Claim C9: every row of the district turnout report (districts 1-10
plus the no-district bucket) has a null turnout rate when its
eligible-voter count is zero, and rate
`ballots_cast / eligible_voters * 100` when the count is positive —
the division is guarded, never a fault. -/
theorem turnoutDivisionGuard (profiles : List (Option String))
    (ballots : List BallotE) (row : TurnoutRow)
    (hrow : row ∈ districtTurnout profiles ballots) :
    (row.eligibleVoters = 0 → row.turnoutRate = none) ∧
    (0 < row.eligibleVoters →
      row.turnoutRate =
        some ((row.ballotsCast : ℚ) / (row.eligibleVoters : ℚ) * 100)) := by
  unfold districtTurnout at hrow
  rw [List.mem_append] at hrow
  rcases hrow with h | h
  · rw [List.mem_map] at h
    obtain ⟨i, _, hi⟩ := h
    rw [← hi]
    exact turnoutRow_spec profiles ballots (some (i + 1))
  · rw [List.mem_singleton] at h
    rw [h]
    exact turnoutRow_spec profiles ballots none

/-- Claim C9 witness: the no-district row on empty voter and ballot
data — zero eligible voters, null rate. -/
theorem turnoutDivisionGuardWitness :
    ((turnoutRow [] [] none).eligibleVoters = 0 →
      (turnoutRow [] [] none).turnoutRate = none) ∧
    (0 < (turnoutRow [] [] none).eligibleVoters →
      (turnoutRow [] [] none).turnoutRate =
        some (((turnoutRow [] [] none).ballotsCast : ℚ) /
          ((turnoutRow [] [] none).eligibleVoters : ℚ) * 100)) := by
  exact turnoutDivisionGuard [] [] (turnoutRow [] [] none)
    (List.mem_append_right _ (List.mem_singleton.mpr rfl))

end BikeAction
